import Mathlib

/-!
# Verification of the storage-volume lifecycle and snapshot subsystem

Shallow embedding of the storage-volume HTTP handlers and the snapshot
scheduler of the incus fork under verification.  Pure Go helpers
(`strings.Count`, `strings.Replace`, `fmt.Sprintf` with a single `%d`
verb) are embedded as executable Lean functions; each handler's control
flow is embedded as a function from its inputs to an outcome and, where
ordering matters, to an ordered event trace.  Database queries and
driver calls whose implementation is outside the analysed sources are
taken as parameters of the embedding, or are modelled from the
specification where the specification pins their behaviour down.
-/

set_option autoImplicit false

namespace Incus

/-! ## Go string helpers

`strings.Count`, `strings.Replace(s, old, new, 1)` and `strings.Replace`
with unlimited count, embedded on `List Char`.  All uses in the embedded
code have a non-empty `old`/`sep` argument, which is the case embedded
here (the Go behaviour for an empty separator differs but is never
exercised by the embedded handlers). -/

/-- Fuel-driven worker for `countSub`.  Each step consumes at least one
character of `s`, so running it with fuel `s.length` computes the number
of non-overlapping occurrences; the fuel only makes the recursion
structural (and hence kernel-reducible). -/
def countSubAux (pat : List Char) : List Char → Nat → Nat
  | _, 0 => 0
  | [], _ => 0
  | c :: rest, fuel + 1 =>
    if pat.isPrefixOf (c :: rest) then
      1 + countSubAux pat (rest.drop (pat.length - 1)) fuel
    else
      countSubAux pat rest fuel

/-- Number of non-overlapping instances of the non-empty pattern `pat`
in `s`, scanning left to right (Go `strings.Count` for non-empty `sep`). -/
def countSub (pat s : List Char) : Nat := countSubAux pat s s.length

/-- Replace the first (leftmost) occurrence of the non-empty pattern
`pat` in `s` by `rep` (Go `strings.Replace(s, old, new, 1)`). -/
def replaceFirstSub (pat rep : List Char) : List Char → List Char
  | [] => []
  | c :: rest =>
    if pat.isPrefixOf (c :: rest) then
      rep ++ (c :: rest).drop pat.length
    else
      c :: replaceFirstSub pat rep rest

/-- Fuel-driven worker for `replaceAllSub`; see `countSubAux`. -/
def replaceAllSubAux (pat rep : List Char) : List Char → Nat → List Char
  | s, 0 => s
  | [], _ => []
  | c :: rest, fuel + 1 =>
    if pat.isPrefixOf (c :: rest) then
      rep ++ replaceAllSubAux pat rep (rest.drop (pat.length - 1)) fuel
    else
      c :: replaceAllSubAux pat rep rest fuel

/-- Replace every non-overlapping occurrence of the non-empty pattern
`pat` in `s` by `rep`, scanning left to right (Go `strings.Replace`
with `n = -1`). -/
def replaceAllSub (pat rep s : List Char) : List Char := replaceAllSubAux pat rep s s.length

/-- Embeds `strings.Count(s, pat)` for non-empty `pat`. -/
def goCount (s pat : String) : Nat := countSub pat.data s.data

/-- Embeds `strings.Replace(s, pat, rep, 1)` for non-empty `pat`. -/
def goReplaceFirst (s pat rep : String) : String := ⟨replaceFirstSub pat.data rep.data s.data⟩

/-- Embeds `strings.Replace(s, pat, rep, -1)` for non-empty `pat`. -/
def goReplaceAll (s pat rep : String) : String := ⟨replaceAllSub pat.data rep.data s.data⟩

/-- The decimal digit character for `d < 10`. -/
def digitChar (d : Nat) : Char := Char.ofNat (48 + d)

/-- Fuel-driven most-significant-first decimal rendering; the fuel `n`
itself always suffices since the number of decimal digits of a positive
`n` is at most `n`. -/
def goItoaCore : Nat → Nat → List Char
  | _, 0 => []
  | n, fuel + 1 =>
    if n = 0 then [] else goItoaCore (n / 10) fuel ++ [digitChar (n % 10)]

/-- Embeds `strconv.Itoa` on a non-negative index (the snapshot indices produced
by the catalog are non-negative): plain decimal rendering. -/
def goItoa (n : Nat) : String := if n = 0 then "0" else ⟨goItoaCore n n⟩

/-! ## C3: `volumeDetermineNextSnapshotName`

Embeds `volumeDetermineNextSnapshotName` from
`cmd/incusd/storage_volumes_snapshot.go`.  The pongo2 template rendering
step is applied upstream of the logic embedded here; the embedding
quantifies over the already-rendered pattern.  The database call
`GetNextStorageVolumeSnapshotIndex` is taken as the parameter
`nextIndex`, and the snapshot-only names of the existing snapshots of
the volume (as produced by `api.GetParentAndSnapshotName`) as the
parameter `existingSnapOnlyNames`. -/

/-- Outcome of `volumeDetermineNextSnapshotName` for a rendered pattern. -/
def volumeDetermineNextSnapshotName (pattern : String) (nextIndex : Nat)
    (existingSnapOnlyNames : List String) : Except String String :=
  let count := goCount pattern "%d"
  if count > 1 then
    .error "Snapshot pattern may contain only one placeholder"
  else if count = 1 then
    .ok (goReplaceFirst pattern "%d" (goItoa nextIndex))
  else if existingSnapOnlyNames.contains pattern then
    .ok (goReplaceFirst pattern "%d" (goItoa nextIndex))
  else
    .ok pattern

/-! ## Shared data model -/

/-- Embeds `strings.Contains(s, pat)` for non-empty `pat`. -/
def goContains (s pat : String) : Bool := countSub pat.data s.data ≠ 0

/-- Embeds `internalInstance.IsSnapshot`: the name contains the snapshot
delimiter `/`. -/
def isSnapshotName (name : String) : Bool := goContains name "/"

/-- Embeds `api.GetParentAndSnapshotName`: split at the first `/` into the
parent name, the snapshot-only name, and whether the name is a snapshot
name at all. -/
def getParentAndSnapshotName (name : String) : String × String × Bool :=
  let pre := name.data.takeWhile (fun c => c ≠ '/')
  let post := name.data.dropWhile (fun c => c ≠ '/')
  match post with
  | [] => (⟨pre⟩, "", false)
  | _ :: rest => (⟨pre⟩, ⟨rest⟩, true)

/-- Go map indexing `m[k]` on a string-keyed map: the zero value `""`
when the key is absent. -/
def goMapGet (m : List (String × String)) (k : String) : String :=
  ((m.find? (fun p => p.1 = k)).map Prod.snd).getD ""

/-- Go comma-ok map lookup `v, ok := m[k]`. -/
def goMapFind (m : List (String × String)) (k : String) : Option String :=
  (m.find? (fun p => p.1 = k)).map Prod.snd

/-- The storage volume types of `db.StoragePoolVolumeType*`; all four are
members of `supportedVolumeTypes`. -/
inductive VolType
  | container
  | vm
  | image
  | custom
  deriving DecidableEq, Repr

/-- The part of `db.StorageVolume` the embedded handlers inspect. -/
structure Volume where
  name : String
  vtype : VolType
  config : List (String × String)
  description : String
  deriving DecidableEq, Repr

/-! ## C10: project-mode detection in `storagePoolVolumesGet` -/

/-- ASCII lowercasing of a character. -/
def charLower (c : Char) : Char :=
  if 'A' ≤ c ∧ c ≤ 'Z' then Char.ofNat (c.toNat + 32) else c

/-- ASCII lowercasing of a string (`strings.ToLower` on the exercised
alphabets). -/
def stringLower (s : String) : String := ⟨s.data.map charLower⟩

/-- Modelled from the spec: `util.IsTrue` (a shared helper whose source
is not among the analysed files).  The HTTP surface documents the
all-projects mode as `all-projects=1` (section 6), so `"1"` must be
truthy; the usual Go truthy spellings are accepted. -/
def goIsTrue (value : String) : Bool :=
  ["true", "1", "yes", "on"].contains (stringLower value)

/-- Project-mode detection of `storagePoolVolumesGet`: rejects a request
that carries both `all-projects` and `project`, and defaults the project
to `api.ProjectDefaultName` when neither is supplied.  Returns `none`
for the all-projects mode, `some projectName` otherwise. -/
def storagePoolVolumesGetProjectMode (allProjectsParam projectParam : String) :
    Except String (Option String) :=
  let allProjects := goIsTrue allProjectsParam
  if allProjects ∧ projectParam ≠ "" then
    .error "Cannot specify a project when requesting all projects"
  else if ¬allProjects ∧ projectParam = "" then
    .ok (some "default")
  else if allProjects then
    .ok none
  else
    .ok (some projectParam)

/-! ## C5: `storagePoolVolumeDelete` -/

/-- The path component of a relative URL reference: everything before
the query or fragment part (`url.Parse(...).Path` for the used-by URLs
the daemon produces; percent-escaping is the identity on the exercised
alphabets). -/
def urlPath (u : String) : String :=
  ⟨u.data.takeWhile (fun c => c ≠ '?' ∧ c ≠ '#')⟩

/-- Embeds `isImageURL` from `storagePoolVolumeDelete`: whether the used-by URL
denotes the image resource with the given fingerprint. -/
def isImageURL (usedByURL fingerprint : String) : Bool :=
  urlPath usedByURL = "/1.0/images/" ++ fingerprint

/-- Outcomes of `storagePoolVolumeDelete`. -/
inductive DeleteOutcome
  | badRequestSnapshotName
  | badRequestType
  | badRequestInUse
  | deleted (vt : VolType)
  deriving DecidableEq, Repr

/-- Embeds `storagePoolVolumeDelete`: the decision logic on the volume type and
the computed used-by list (`volumeUsedBy`), with the name of the volume
serving as the image fingerprint for image volumes. -/
def storagePoolVolumeDelete (vt : VolType) (volName : String)
    (volumeUsedBy : List String) : DeleteOutcome :=
  if isSnapshotName volName then
    .badRequestSnapshotName
  else if vt ≠ .custom ∧ vt ≠ .image then
    .badRequestType
  else if volumeUsedBy.length > 0 ∧
      (volumeUsedBy.length ≠ 1 ∨ vt ≠ .image ∨
        ¬isImageURL (volumeUsedBy.headD "") volName) then
    .badRequestInUse
  else
    .deleted vt

/-! ## C6: `createStoragePoolVolumeFromBackup` -/

/-- Failure modes of the backup-import pool resolution and the import
run function. -/
inductive BackupImportErr
  | poolNotFound
  | noDefaultProfileRootDisk
  | optimizedDriverMismatch
  deriving DecidableEq, Repr

/-- Pool resolution of `createStoragePoolVolumeFromBackup`: `reqPool` is
the pool pinned by the user in the request (empty when absent),
`binfoPool` the pool recorded in the backup manifest, `poolExists` the
catalog lookup, and `defaultProfileRootPool` the pool of the root disk
device of the default profile of the target project (`none` when the
profile has no root disk).  Returns the pool the import will use. -/
def createStoragePoolVolumeFromBackupResolvePool (poolExists : String → Bool)
    (defaultProfileRootPool : Option String) (reqPool binfoPool : String)
    (optimized : Bool) : Except BackupImportErr String :=
  let pool := if reqPool ≠ "" then reqPool else binfoPool
  if poolExists pool then
    .ok pool
  else if optimized ∨ reqPool ≠ "" then
    .error .poolNotFound
  else
    match defaultProfileRootPool with
    | none => .error .noDefaultProfileRootDisk
    | some p => .ok p

/-- The driver compatibility check inside the `run` closure of
`createStoragePoolVolumeFromBackup`: an optimized backup whose recorded
backend differs from the driver of the resolved target pool is
rejected before the driver import is invoked. -/
def createStoragePoolVolumeFromBackupRun (driverOf : String → String)
    (binfoBackend : String) (optimized : Bool) (targetPool : String) :
    Except BackupImportErr Unit :=
  if optimized ∧ driverOf targetPool ≠ binfoBackend then
    .error .optimizedDriverMismatch
  else
    .ok ()

/-! ## C7: manual snapshot creation (`storagePoolVolumeSnapshotsTypePost`) -/

/-- Embeds `fmt.Sprintf(pattern, i)` for a single `int` argument: each `%d`
verb consumes an argument left to right; a missing argument renders as
a MISSING marker and a surplus argument appends an EXTRA marker. -/
def goSprintfInt (pattern : String) (i : Nat) : String :=
  if goCount pattern "%d" = 0 then
    pattern ++ "%!(EXTRA int=" ++ goItoa i ++ ")"
  else
    goReplaceAll (goReplaceFirst pattern "%d" (goItoa i)) "%d" "%!d(MISSING)"

/-- Snapshot-name determination of `storagePoolVolumeSnapshotsTypePost`
for an already-rendered pattern: an empty request name is derived from
`config["snapshots.pattern"]` (default `snap%d` when that is empty) by
substituting the next snapshot index; a supplied name is used as is. -/
def storagePoolVolumeSnapshotsTypePostName (config : List (String × String))
    (nextIndex : Nat) (reqName : String) : String :=
  if reqName = "" then
    let pattern := goMapGet config "snapshots.pattern"
    let pattern := if pattern = "" then "snap%d" else pattern
    goSprintfInt pattern nextIndex
  else
    reqName

/-- Where the expiry of a manual snapshot comes from: the request value,
or a duration string read from the volume configuration and passed to
`instance.GetExpiry`. -/
inductive ExpiryChoice
  | fromRequest (t : Int)
  | computed (duration : String)
  deriving DecidableEq, Repr

/-- Expiry determination of `storagePoolVolumeSnapshotsTypePost`: the
request expiry wins; otherwise `config["snapshots.expiry.manual"]`,
falling back to `config["snapshots.expiry"]`, is handed to
`instance.GetExpiry`. -/
def storagePoolVolumeSnapshotsTypePostExpiry (config : List (String × String))
    (reqExpiresAt : Option Int) : ExpiryChoice :=
  match reqExpiresAt with
  | some t => .fromRequest t
  | none =>
    let duration := goMapGet config "snapshots.expiry.manual"
    let duration := if duration = "" then goMapGet config "snapshots.expiry" else duration
    .computed duration

/-! ## C8 and C9: `storagePoolVolumeGet`, `storagePoolVolumePut`

The ETag of a storage volume is computed from the triple
`[]any{volumeName, dbVolume.Type, dbVolume.Config}` in both the GET and
the PUT/PATCH handlers; `localUtil.EtagCheck` hashes that triple and
compares it with the hash supplied by the client, so a mismatch of the
supplied tag with the current triple is exactly a mismatch of the two
hashes.  The embedding represents a tag by the triple itself. -/

/-- The ETag triple `[]any{volumeName, dbVolume.Type, dbVolume.Config}`
computed by `storagePoolVolumeGet`, `storagePoolVolumePut` and
`storagePoolVolumePatch`. -/
def volumeETag (volumeName : String) (vt : VolType)
    (config : List (String × String)) : String × VolType × List (String × String) :=
  (volumeName, vt, config)

/-- The ETag returned by `storagePoolVolumeGet` alongside the volume
body (`response.SyncResponseETag(true, dbVolume.StorageVolume, etag)`). -/
def storagePoolVolumeGetETag (vol : Volume) :
    String × VolType × List (String × String) :=
  volumeETag vol.name vol.vtype vol.config

/-- Embeds `localUtil.EtagCheck`: succeeds when the request carries no tag, or
when the supplied tag matches the current one. -/
def etagCheck (provided : Option (String × VolType × List (String × String)))
    (current : String × VolType × List (String × String)) : Bool :=
  match provided with
  | none => true
  | some t => t = current

/-- The body of a PUT request (`api.StorageVolumePut`): `restore` is the
snapshot to restore from (empty for a plain update), `config` is `nil`
or a map. -/
structure PutRequest where
  restore : String
  config : Option (List (String × String))
  description : String
  deriving DecidableEq, Repr

/-- The driver calls issued by `storagePoolVolumePut`, in order. -/
inductive PutEvent
  | restore (snap : String)
  | updateCustomVolume
  | updateInstance
  | updateImage
  deriving DecidableEq, Repr

/-- Outcomes of `storagePoolVolumePut`. -/
inductive PutOutcome
  | ok
  | preconditionFailed
  | smartError
  deriving DecidableEq, Repr

/-- Embeds `storagePoolVolumePut`: ETag validation followed by the per-type
update logic.  For custom volumes a non-empty `restore` runs the
snapshot restore first, and the config/description update step runs
afterwards only when `req.Config != nil || req.Restore == ""`.
`restoreOk` is the outcome of the driver restore call; the driver
update calls are taken to succeed since nothing after them matters to
the claims. -/
def storagePoolVolumePut (vol : Volume)
    (provided : Option (String × VolType × List (String × String)))
    (req : PutRequest) (restoreOk : Bool) : PutOutcome × List PutEvent :=
  if ¬etagCheck provided (volumeETag vol.name vol.vtype vol.config) then
    (.preconditionFailed, [])
  else
    match vol.vtype with
    | .custom =>
      if req.restore ≠ "" then
        if ¬restoreOk then
          (.smartError, [.restore req.restore])
        else if req.config.isSome then
          (.ok, [.restore req.restore, .updateCustomVolume])
        else
          (.ok, [.restore req.restore])
      else
        (.ok, [.updateCustomVolume])
    | .container => (.ok, [.updateInstance])
    | .vm => (.ok, [.updateInstance])
    | .image => (.ok, [.updateImage])

/-! ## C1: remote-entry dispatch of the snapshot scheduler task

`pruneExpiredAndAutoCreateCustomVolumeSnapshotsTask` applies the same
selection logic to the expired remote snapshots and to the remote
volumes due for a scheduled snapshot.  `GetStableRandomInt64FromList`
is defined outside the analysed sources, so the dispatch is embedded
over an arbitrary selection function `select`. -/

/-- A remote catalog entry of the scheduler: an expired snapshot or a
volume due for a scheduled snapshot, identified by its row id; a
negative `nodeID` marks it remote. -/
structure SchedulerEntry where
  id : Int
  nodeID : Int
  deriving DecidableEq, Repr

/-- Modelled from the spec: `GetStableRandomInt64FromList` (in
`internal/server/util`, not among the analysed files) — a pure
deterministic hash of the key modulo an index into the sorted list of
online member ids (section 9, scheduler fairness).  The general
theorems quantify over the selection function; this definition only
instantiates them at concrete inputs. -/
def insertLE (x : Int) : List Int → List Int
  | [] => [x]
  | y :: ys => if x ≤ y then x :: y :: ys else y :: insertLE x ys

/-- Insertion sort on member ids (ascending). -/
def sortInts (l : List Int) : List Int := l.foldr insertLE []

def getStableRandomInt64FromList (key : Int) (ids : List Int) : Except String Int :=
  if ids = [] then
    .error "Empty list given"
  else
    let sorted := sortInts ids
    .ok (sorted.getD (key.natAbs % sorted.length) 0)

/-- The remote-entry dispatch of
`pruneExpiredAndAutoCreateCustomVolumeSnapshotsTask`: when the cluster
has more than one member but none is online, every remote entry is
skipped; otherwise each entry is kept when the cluster has a single
member, or when the stable-randomly selected online member is the local
member (entries for which the selection fails are skipped). -/
def remoteEntryDispatch (select : Int → List Int → Except String Int)
    (memberCount : Nat) (onlineMemberIDs : List Int) (localMemberID : Int)
    (entries : List SchedulerEntry) : List SchedulerEntry :=
  if memberCount > 1 ∧ onlineMemberIDs.isEmpty then
    []
  else
    entries.filter fun v =>
      if memberCount > 1 then
        match select v.id onlineMemberIDs with
        | .error _ => false
        | .ok selected => localMemberID = selected
      else
        true

/-! ## C2: `storagePoolVolumePost` dispatch and `storagePoolVolumeTypePostMove` -/

/-- How a POST to a custom volume is dispatched. -/
inductive PostDispatch
  | badRequest (msg : String)
  | migrate
  | rename
  | move (dstPool dstProject : String)
  deriving DecidableEq, Repr

/-- The rename/move/migrate dispatch of `storagePoolVolumePost` (the
non-clustered path): `projectName` is the effective source project,
`effectiveProject` embeds `project.StorageVolumeProject` for the
requested target project.  A rename is detected when the requested pool
is empty or the source pool and the effective target project equals the
source project; otherwise the request is a move. -/
def storagePoolVolumePostDispatch (srcPoolName projectName : String)
    (effectiveProject : String → String)
    (reqName reqPool reqProject : String) (reqMigration : Bool) : PostDispatch :=
  if reqName = "" then
    .badRequest "No name provided"
  else if isSnapshotName reqName then
    .badRequest "Storage volume names may not contain slashes"
  else
    let targetProjectName := projectName
    let check : Except String String :=
      if reqProject ≠ "" then
        let t := effectiveProject reqProject
        if t ≠ reqProject then
          .error "Target project does not have the volumes feature enabled"
        else if projectName = t then
          .error "Project and target project are the same"
        else
          .ok t
      else
        .ok targetProjectName
    match check with
    | .error msg => .badRequest msg
    | .ok targetProjectName =>
      if reqMigration then
        .migrate
      else if (reqPool = "" ∨ reqPool = srcPoolName) ∧ projectName = targetProjectName then
        .rename
      else
        .move (if reqPool ≠ "" then reqPool else srcPoolName) targetProjectName

/-- The externally visible steps of the `run` closure of
`storagePoolVolumeTypePostMove`, in execution order.  `revertCopy` is
never emitted by the move itself: the only undo action the move
registers on its reverter is the consumer-update revert, and any
cleanup of a partially copied volume happens inside the driver call
`CreateCustomVolumeFromCopy` before that closure returns. -/
inductive MoveEvent
  | updateUsers (srcPool dstPool : String)
  | copyVolume (srcPool dstPool : String)
  | deleteSource (srcPool : String)
  | revertUsers (dstPool srcPool : String)
  | revertCopy
  deriving DecidableEq, Repr

/-- Success or failure of the three fallible steps of the move run
closure: `storagePoolVolumeUpdateUsers`, `CreateCustomVolumeFromCopy`
and `DeleteCustomVolume`. -/
structure MoveStepResults where
  updateUsersOk : Bool
  copyOk : Bool
  deleteOk : Bool
  deriving DecidableEq, Repr

/-- The `run` closure of `storagePoolVolumeTypePostMove`: update the
consumers (profiles and instance devices) to the new pool, register the
reverse consumer update as the sole undo action, copy the volume to the
new pool, delete the source volume, and on any failure run the
registered undo actions in reverse order (here: the single consumer
revert).  Returns whether the run succeeded and the ordered event
trace. -/
def storagePoolVolumeTypePostMove (srcPool dstPool : String)
    (res : MoveStepResults) : Bool × List MoveEvent :=
  if ¬res.updateUsersOk then
    (false, [])
  else if ¬res.copyOk then
    (false, [.updateUsers srcPool dstPool, .revertUsers dstPool srcPool])
  else if ¬res.deleteOk then
    (false, [.updateUsers srcPool dstPool, .copyVolume srcPool dstPool,
      .revertUsers dstPool srcPool])
  else
    (true, [.updateUsers srcPool dstPool, .copyVolume srcPool dstPool,
      .deleteSource srcPool])

/-! ## C4: the snapshot scheduler tick

`pruneExpiredAndAutoCreateCustomVolumeSnapshotsTask` runs once per
minute.  The embedding threads an explicit catalog state through one
tick and records the driver calls as an ordered event trace.  The
database helpers the task calls (`GetExpiredStorageVolumeSnapshots`,
`GetNextStorageVolumeSnapshotIndex`) and the cron check
`snapshotIsScheduledNow` are not among the analysed source files and
are modelled from the spec where noted. -/

/-- A custom volume row (`db.StorageVolumeArgs`) as seen by the
scheduler. -/
structure SVolume where
  id : Int
  name : String
  projectName : String
  poolName : String
  nodeID : Int
  config : List (String × String)
  deriving DecidableEq, Repr

/-- A custom volume snapshot row; `name` is `parent/snap` and
`expiresAt = none` means the snapshot never expires (the zero time). -/
structure SSnapshot where
  id : Int
  name : String
  projectName : String
  poolName : String
  nodeID : Int
  expiresAt : Option Int
  deriving DecidableEq, Repr

/-- The catalog rows the scheduler reads and writes. -/
structure CatalogState where
  volumes : List SVolume
  snapshots : List SSnapshot
  nextRowID : Int
  deriving DecidableEq, Repr

/-- The driver calls a scheduler tick issues, in order. -/
inductive TickEvent
  | deleteSnapshot (projectName snapName : String)
  | createSnapshot (projectName volName snapName : String)
  deriving DecidableEq, Repr

/-- Whether a tick event is a snapshot deletion. -/
def TickEvent.isDelete : TickEvent → Bool
  | .deleteSnapshot _ _ => true
  | _ => false

/-- Whether a tick event is a snapshot creation. -/
def TickEvent.isCreate : TickEvent → Bool
  | .createSnapshot _ _ _ => true
  | _ => false

/-- Modelled from the spec: `snapshotIsScheduledNow` (in `cmd/incusd`,
not among the analysed files).  Section 4.6 step 1 collects the volumes
whose cron-like `snapshots.schedule` matches this minute, and section 9
requires scheduling decisions to be pure functions, so the check is a
deterministic function of the schedule string, the volume id and the
current minute.  Only the every-minute schedule is exercised by the
claims; other schedule strings are conservatively treated as not
matching. -/
def snapshotIsScheduledNow (schedule : String) (_volID : Int) (_minute : Int) : Bool :=
  schedule = "* * * * *"

/-- Modelled from the spec: the expiry filter of
`GetExpiredStorageVolumeSnapshots` (section 4.3) — a snapshot is
returned when its `expiry_at` is set and past now. -/
def snapshotIsExpired (now : Int) (s : SSnapshot) : Bool :=
  match s.expiresAt with
  | none => false
  | some e => e < now

/-- Modelled from the spec: `GetNextStorageVolumeSnapshotIndex`
(section 4.3) — the smallest `i ≥ 0` such that `substitute(pattern, i)`
is not currently taken by any snapshot of the volume.  Searching the
first `n + 1` candidates suffices since at most `n` names are taken. -/
def getNextStorageVolumeSnapshotIndex (pattern : String)
    (existingSnapOnlyNames : List String) : Nat :=
  (((List.range (existingSnapOnlyNames.length + 1)).filter
    (fun i => ¬existingSnapOnlyNames.contains
      (goReplaceFirst pattern "%d" (goItoa i)))).headD 0)

/-- The snapshot-only names of the snapshot rows in `snaps`. -/
def snapshotOnlyNames (snaps : List SSnapshot) : List String :=
  snaps.map (fun s => (getParentAndSnapshotName s.name).2.1)

/-- The snapshot rows whose parent volume name is `parent` (across all
pools, as collected by the pool/project loops of
`volumeDetermineNextSnapshotName`). -/
def snapshotsOfVolume (snaps : List SSnapshot) (parent : String) : List SSnapshot :=
  snaps.filter (fun s => (getParentAndSnapshotName s.name).1 = parent)

/-- The snapshot rows of `parent` restricted to one pool (the scope of
`GetNextStorageVolumeSnapshotIndex`). -/
def snapshotsOfVolumeInPool (snaps : List SSnapshot) (parent pool : String) :
    List SSnapshot :=
  snaps.filter (fun s => (getParentAndSnapshotName s.name).1 = parent ∧ s.poolName = pool)

/-- The environment of one scheduler tick: the cluster view, the
selection function, the expiry parser and the cron check (the latter
three live outside the analysed sources and are parameters of the
embedding). -/
structure SchedulerEnv where
  select : Int → List Int → Except String Int
  getExpiry : Int → String → Option Int
  scheduledNow : String → Int → Int → Bool
  allowSnapshotCreation : String → Bool
  memberCount : Nat
  onlineMemberIDs : List Int
  localMemberID : Int
  now : Int

/-- Embeds `pruneExpiredCustomVolumeSnapshots`: delete each expired snapshot in
order, removing its row (the `customVolSnapshotsPruneRunning` map only
deduplicates concurrent runs and is inert within a single tick). -/
def pruneExpiredCustomVolumeSnapshots :
    CatalogState → List SSnapshot → CatalogState × List TickEvent
  | st, [] => (st, [])
  | st, s :: rest =>
    let st1 : CatalogState :=
      { st with snapshots := st.snapshots.filter (fun t => t.id ≠ s.id) }
    let r := pruneExpiredCustomVolumeSnapshots st1 rest
    (r.1, .deleteSnapshot s.projectName s.name :: r.2)

/-- Embeds `autoCreateCustomVolumeSnapshots`: create the snapshots
sequentially; the snapshot name is determined by
`volumeDetermineNextSnapshotName` with default pattern `snap%d` against
the catalog as it stands when the volume is processed, and the expiry
comes from `config["snapshots.expiry"]`.  A name-determination error
aborts the run (the remaining volumes are not processed). -/
def autoCreateCustomVolumeSnapshots (env : SchedulerEnv) :
    CatalogState → List SVolume → CatalogState × List TickEvent
  | st, [] => (st, [])
  | st, v :: rest =>
    let pattern :=
      match goMapFind v.config "snapshots.pattern" with
      | none => "snap%d"
      | some p => p
    let idx := getNextStorageVolumeSnapshotIndex pattern
      (snapshotOnlyNames (snapshotsOfVolumeInPool st.snapshots v.name v.poolName))
    match volumeDetermineNextSnapshotName pattern idx
        (snapshotOnlyNames (snapshotsOfVolume st.snapshots v.name)) with
    | .error _ => (st, [])
    | .ok snapName =>
      let snap : SSnapshot :=
        { id := st.nextRowID
          name := v.name ++ "/" ++ snapName
          projectName := v.projectName
          poolName := v.poolName
          nodeID := v.nodeID
          expiresAt := env.getExpiry env.now (goMapGet v.config "snapshots.expiry") }
      let st1 : CatalogState :=
        { st with snapshots := st.snapshots ++ [snap], nextRowID := st.nextRowID + 1 }
      let r := autoCreateCustomVolumeSnapshots env st1 rest
      (r.1, .createSnapshot v.projectName v.name snapName :: r.2)

/-- One tick of
`pruneExpiredAndAutoCreateCustomVolumeSnapshotsTask`: collect the
expired snapshots and the volumes due for a scheduled snapshot, split
each list into local and remote entries, dispatch the remote entries to
a stable online member, then process all expiries before any creation
is started. -/
def pruneExpiredAndAutoCreateCustomVolumeSnapshotsTask (env : SchedulerEnv)
    (st : CatalogState) : CatalogState × List TickEvent :=
  let allExpired := st.snapshots.filter (snapshotIsExpired env.now)
  let expiredLocal := allExpired.filter (fun s => s.nodeID ≥ 0)
  let expiredRemote := allExpired.filter (fun s => s.nodeID < 0)
  let due := st.volumes.filter (fun v =>
    env.allowSnapshotCreation v.projectName ∧
    goMapGet v.config "snapshots.schedule" ≠ "" ∧
    env.scheduledNow (goMapGet v.config "snapshots.schedule") v.id env.now)
  let dueLocal := due.filter (fun v => v.nodeID ≥ 0)
  let dueRemote := due.filter (fun v => v.nodeID < 0)
  let expiredSelected := remoteEntryDispatch env.select env.memberCount
    env.onlineMemberIDs env.localMemberID
    (expiredRemote.map (fun s => SchedulerEntry.mk s.id s.nodeID))
  let dueSelected := remoteEntryDispatch env.select env.memberCount
    env.onlineMemberIDs env.localMemberID
    (dueRemote.map (fun v => SchedulerEntry.mk v.id v.nodeID))
  let expiredFinal := expiredLocal ++
    expiredRemote.filter (fun s => (expiredSelected.map SchedulerEntry.id).contains s.id)
  let dueFinal := dueLocal ++
    dueRemote.filter (fun v => (dueSelected.map SchedulerEntry.id).contains v.id)
  let r1 := pruneExpiredCustomVolumeSnapshots st expiredFinal
  let r2 := autoCreateCustomVolumeSnapshots env r1.1 dueFinal
  (r2.1, r1.2 ++ r2.2)

/-- A single-member cluster environment for concrete scheduler runs:
one member, online, local; the spec-modelled cron check; the expiry
parser maps the empty duration to no expiry (the zero time). -/
def schedTestEnv : SchedulerEnv :=
  { select := getStableRandomInt64FromList
    getExpiry := fun _ d => if d = "" then none else some 0
    scheduledNow := snapshotIsScheduledNow
    allowSnapshotCreation := fun _ => true
    memberCount := 1
    onlineMemberIDs := [0]
    localMemberID := 0
    now := 100 }

/-- A catalog with one custom volume `vol1` scheduled every minute and
one expired snapshot `vol1/snap0`. -/
def schedTestState : CatalogState :=
  { volumes := [{ id := 1, name := "vol1", projectName := "default", poolName := "pool1",
                  nodeID := 0, config := [("snapshots.schedule", "* * * * *")] }]
    snapshots := [{ id := 10, name := "vol1/snap0", projectName := "default",
                    poolName := "pool1", nodeID := 0, expiresAt := some 5 }]
    nextRowID := 11 }

/-! ## Lemmas about the Go string helpers -/

theorem countSubAux_fuel (pat : List Char) :
    ∀ (f1 : Nat) (s : List Char) (f2 : Nat), s.length ≤ f1 → s.length ≤ f2 →
      countSubAux pat s f1 = countSubAux pat s f2 := by
  intro f1
  induction f1 with
  | zero =>
    intro s f2 h1 _
    have hs : s = [] := List.length_eq_zero.mp (Nat.le_zero.mp h1)
    subst hs
    cases f2 <;> rfl
  | succ f ih =>
    intro s f2 h1 h2
    cases s with
    | nil => cases f2 <;> rfl
    | cons c rest =>
      cases f2 with
      | zero => simp at h2
      | succ g =>
        simp only [countSubAux]
        by_cases hp : pat.isPrefixOf (c :: rest)
        · simp only [hp, if_true]
          have hlen : (rest.drop (pat.length - 1)).length ≤ rest.length := by
            simp [List.length_drop]
          simp only [List.length_cons, Nat.succ_le_succ_iff] at h1 h2
          rw [ih (rest.drop (pat.length - 1)) g (le_trans hlen h1) (le_trans hlen h2)]
        · simp only [hp, if_false]
          simp only [List.length_cons, Nat.succ_le_succ_iff] at h1 h2
          exact ih rest g h1 h2

theorem countSub_cons (pat : List Char) (c : Char) (rest : List Char) :
    countSub pat (c :: rest) =
      if pat.isPrefixOf (c :: rest) then 1 + countSub pat (rest.drop (pat.length - 1))
      else countSub pat rest := by
  show countSubAux pat (c :: rest) (c :: rest).length = _
  simp only [List.length_cons, countSubAux]
  by_cases hp : pat.isPrefixOf (c :: rest)
  · simp only [hp, if_true]
    congr 1
    exact countSubAux_fuel pat rest.length (rest.drop (pat.length - 1))
      (rest.drop (pat.length - 1)).length (by simp [List.length_drop]) (le_refl _)
  · simp only [hp, if_false]
    rfl

theorem replaceAllSubAux_fuel (pat rep : List Char) :
    ∀ (f1 : Nat) (s : List Char) (f2 : Nat), s.length ≤ f1 → s.length ≤ f2 →
      replaceAllSubAux pat rep s f1 = replaceAllSubAux pat rep s f2 := by
  intro f1
  induction f1 with
  | zero =>
    intro s f2 h1 _
    have hs : s = [] := List.length_eq_zero.mp (Nat.le_zero.mp h1)
    subst hs
    cases f2 <;> rfl
  | succ f ih =>
    intro s f2 h1 h2
    cases s with
    | nil => cases f2 <;> rfl
    | cons c rest =>
      cases f2 with
      | zero => simp at h2
      | succ g =>
        simp only [replaceAllSubAux]
        by_cases hp : pat.isPrefixOf (c :: rest)
        · simp only [hp, if_true]
          have hlen : (rest.drop (pat.length - 1)).length ≤ rest.length := by
            simp [List.length_drop]
          simp only [List.length_cons, Nat.succ_le_succ_iff] at h1 h2
          rw [ih (rest.drop (pat.length - 1)) g (le_trans hlen h1) (le_trans hlen h2)]
        · simp only [hp, if_false]
          simp only [List.length_cons, Nat.succ_le_succ_iff] at h1 h2
          rw [ih rest g h1 h2]
          simp

theorem replaceAllSub_cons (pat rep : List Char) (c : Char) (rest : List Char) :
    replaceAllSub pat rep (c :: rest) =
      if pat.isPrefixOf (c :: rest) then
        rep ++ replaceAllSub pat rep (rest.drop (pat.length - 1))
      else
        c :: replaceAllSub pat rep rest := by
  show replaceAllSubAux pat rep (c :: rest) (c :: rest).length = _
  simp only [List.length_cons, replaceAllSubAux]
  by_cases hp : pat.isPrefixOf (c :: rest)
  · simp only [hp, if_true]
    congr 1
    exact replaceAllSubAux_fuel pat rep rest.length (rest.drop (pat.length - 1))
      (rest.drop (pat.length - 1)).length (by simp [List.length_drop]) (le_refl _)
  · simp only [hp, if_false]
    rfl

theorem replaceFirstSub_of_countSub_eq_zero (pat rep : List Char) :
    ∀ s, countSub pat s = 0 → replaceFirstSub pat rep s = s := by
  intro s
  induction s with
  | nil => intro _; rfl
  | cons c rest ih =>
    intro h
    rw [countSub_cons] at h
    by_cases hp : pat.isPrefixOf (c :: rest)
    · simp [hp] at h
    · simp only [hp, if_false] at h
      simp only [Bool.false_eq_true, if_false] at h
      simp only [replaceFirstSub, hp, Bool.false_eq_true, if_false]
      rw [ih h]

theorem replaceAllSub_of_countSub_eq_zero (pat rep : List Char) :
    ∀ s, countSub pat s = 0 → replaceAllSub pat rep s = s := by
  intro s
  induction s with
  | nil => intro _; rfl
  | cons c rest ih =>
    intro h
    rw [countSub_cons] at h
    by_cases hp : pat.isPrefixOf (c :: rest)
    · simp [hp] at h
    · simp only [hp, if_false] at h
      simp only [Bool.false_eq_true, if_false] at h
      rw [replaceAllSub_cons]
      simp only [hp, Bool.false_eq_true, if_false]
      rw [ih h]

/-! ## Lemmas specific to the placeholder pattern -/

theorem pd_prefix_iff (x : Char) (l : List Char) :
    (['%', 'd'].isPrefixOf (x :: l)) = true ↔ x = '%' ∧ ∃ t, l = 'd' :: t := by
  cases l with
  | nil => simp [List.isPrefixOf]
  | cons y t =>
    simp only [List.isPrefixOf, Bool.and_eq_true, beq_iff_eq]
    constructor
    · rintro ⟨hx, hy, -⟩
      exact ⟨hx.symm, t, by rw [← hy]⟩
    · rintro ⟨hx, t2, ht⟩
      obtain ⟨h1, h2⟩ := List.cons.inj ht
      refine ⟨hx.symm, h1.symm, ?_⟩
      simp [List.isPrefixOf]

theorem countSub_pd_append (a b : List Char) (ha : ∀ c ∈ a, c ≠ '%')
    (hb : countSub ['%', 'd'] b = 0) : countSub ['%', 'd'] (a ++ b) = 0 := by
  induction a with
  | nil => simpa using hb
  | cons x a2 ih =>
    have hx : x ≠ '%' := ha x (by simp)
    rw [List.cons_append, countSub_cons, if_neg]
    · exact ih (fun c hc => ha c (by simp [hc]))
    · rw [pd_prefix_iff]
      rintro ⟨hc, -⟩
      exact hx hc

theorem countSub_pd_replaceFirst (rep : List Char) (hrep : ∀ c ∈ rep, c ≠ '%')
    (hhd : ∀ c, rep.head? = some c → c ≠ 'd') (hne : rep ≠ []) :
    ∀ s, countSub ['%', 'd'] s = 1 →
      countSub ['%', 'd'] (replaceFirstSub ['%', 'd'] rep s) = 0 := by
  intro s
  induction s with
  | nil => intro h; simp [countSub, countSubAux] at h
  | cons c rest ih =>
    intro h
    rw [countSub_cons] at h
    have hlen : (['%', 'd'] : List Char).length - 1 = 1 := rfl
    rw [hlen] at h
    by_cases hp : (['%', 'd'] : List Char).isPrefixOf (c :: rest) = true
    · rw [if_pos hp] at h
      have h0 : countSub ['%', 'd'] (rest.drop 1) = 0 := by omega
      have hrw : replaceFirstSub ['%', 'd'] rep (c :: rest) = rep ++ (c :: rest).drop 2 := by
        simp [replaceFirstSub, hp]
      rw [hrw]
      have hdrop : (c :: rest).drop 2 = rest.drop 1 := rfl
      rw [hdrop]
      exact countSub_pd_append rep (rest.drop 1) hrep h0
    · rw [if_neg hp] at h
      have hR := ih h
      have hrw : replaceFirstSub ['%', 'd'] rep (c :: rest) =
          c :: replaceFirstSub ['%', 'd'] rep rest := by
        simp [replaceFirstSub, hp]
      rw [hrw, countSub_cons, if_neg]
      · exact hR
      · rw [pd_prefix_iff]
        rintro ⟨hc, t, ht⟩
        cases rest with
        | nil => simp [replaceFirstSub] at ht
        | cons r rest2 =>
          by_cases hp3 : (['%', 'd'] : List Char).isPrefixOf (r :: rest2) = true
          · have hrw2 : replaceFirstSub ['%', 'd'] rep (r :: rest2) =
                rep ++ (r :: rest2).drop 2 := by
              simp [replaceFirstSub, hp3]
            rw [hrw2] at ht
            cases rep with
            | nil => exact absurd rfl hne
            | cons r0 rep2 =>
              rw [List.cons_append] at ht
              obtain ⟨h1, -⟩ := List.cons.inj ht
              exact hhd r0 rfl h1
          · have hrw2 : replaceFirstSub ['%', 'd'] rep (r :: rest2) =
                r :: replaceFirstSub ['%', 'd'] rep rest2 := by
              simp [replaceFirstSub, hp3]
            rw [hrw2] at ht
            obtain ⟨h1, -⟩ := List.cons.inj ht
            apply hp
            rw [pd_prefix_iff]
            exact ⟨hc, rest2, by rw [h1]⟩

theorem goItoaCore_digits :
    ∀ (fuel n : Nat), ∀ c ∈ goItoaCore n fuel, ∃ d, d < 10 ∧ c = digitChar d := by
  intro fuel
  induction fuel with
  | zero => intro n c h; simp [goItoaCore] at h
  | succ f ih =>
    intro n c h
    by_cases hn : n = 0
    · simp [goItoaCore, hn] at h
    · simp only [goItoaCore, hn, if_false] at h
      rw [List.mem_append] at h
      rcases h with h | h
      · exact ih _ c h
      · simp only [List.mem_singleton] at h
        exact ⟨n % 10, Nat.mod_lt _ (by norm_num), h⟩

theorem digitChar_ne_pct_d : ∀ d, d < 10 → digitChar d ≠ '%' ∧ digitChar d ≠ 'd' := by
  decide

/-- The decimal rendering of an index: non-empty, free of `%`, and not
starting with `d` — so substituting it for the placeholder cannot
create a new placeholder occurrence. -/
theorem goItoa_facts (n : Nat) :
    (goItoa n).data ≠ [] ∧ (∀ c ∈ (goItoa n).data, c ≠ '%') ∧
      (∀ c, (goItoa n).data.head? = some c → c ≠ 'd') := by
  by_cases hn : n = 0
  · subst hn
    refine ⟨by decide, by decide, by decide⟩
  · have hdata : (goItoa n).data = goItoaCore n n := by
      simp [goItoa, hn]
    have hmem : ∀ c ∈ goItoaCore n n, ∃ d, d < 10 ∧ c = digitChar d :=
      goItoaCore_digits n n
    refine ⟨?_, ?_, ?_⟩
    · rw [hdata]
      cases n with
      | zero => exact absurd rfl hn
      | succ m =>
        simp [goItoaCore]
    · intro c hc
      rw [hdata] at hc
      obtain ⟨d, hd, rfl⟩ := hmem c hc
      exact (digitChar_ne_pct_d d hd).1
    · intro c hc
      rw [hdata] at hc
      have hcmem : c ∈ goItoaCore n n := by
        cases hgo : goItoaCore n n with
        | nil => rw [hgo] at hc; simp at hc
        | cons x xs => rw [hgo] at hc; simp at hc; simp [hgo, hc]
      obtain ⟨d, hd, rfl⟩ := hmem c hcmem
      exact (digitChar_ne_pct_d d hd).2

/-- For a pattern with exactly one `%d` verb, `fmt.Sprintf(pattern, i)`
is the substitution of the rendered index for the placeholder. -/
theorem goSprintfInt_eq_goReplaceFirst (pattern : String) (i : Nat)
    (h : goCount pattern "%d" = 1) :
    goSprintfInt pattern i = goReplaceFirst pattern "%d" (goItoa i) := by
  unfold goSprintfInt
  rw [h]
  simp only [OfNat.one_ne_ofNat, if_false, one_ne_zero]
  have hpd : ("%d" : String).data = ['%', 'd'] := rfl
  obtain ⟨hne, hpct, hhd⟩ := goItoa_facts i
  have h0 : countSub ("%d" : String).data
      (replaceFirstSub ("%d" : String).data (goItoa i).data pattern.data) = 0 := by
    rw [hpd]
    exact countSub_pd_replaceFirst (goItoa i).data hpct hhd hne pattern.data h
  show String.mk (replaceAllSub ("%d" : String).data ("%!d(MISSING)" : String).data
    (replaceFirstSub ("%d" : String).data (goItoa i).data pattern.data)) = _
  rw [replaceAllSub_of_countSub_eq_zero _ _ _ h0]
  rfl

/-- The replacement of the first occurrence of a pattern that does not
occur is the identity; this is what makes the exists-branch of
`volumeDetermineNextSnapshotName` return the pattern unchanged. -/
theorem goReplaceFirst_of_goCount_eq_zero (pattern rep : String)
    (h : goCount pattern "%d" = 0) : goReplaceFirst pattern "%d" rep = pattern := by
  show String.mk (replaceFirstSub "%d".data rep.data pattern.data) = pattern
  rw [replaceFirstSub_of_countSub_eq_zero "%d".data rep.data pattern.data h]

/-! ## Scheduler trace lemmas -/

theorem pruneExpired_events_are_deletes :
    ∀ (l : List SSnapshot) (st : CatalogState),
      ∀ e ∈ (pruneExpiredCustomVolumeSnapshots st l).2, e.isDelete = true := by
  intro l
  induction l with
  | nil =>
    intro st e he
    simp [pruneExpiredCustomVolumeSnapshots] at he
  | cons s rest ih =>
    intro st e he
    simp only [pruneExpiredCustomVolumeSnapshots, List.mem_cons] at he
    rcases he with rfl | he
    · rfl
    · exact ih _ e he

theorem autoCreate_events_are_creates (env : SchedulerEnv) :
    ∀ (l : List SVolume) (st : CatalogState),
      ∀ e ∈ (autoCreateCustomVolumeSnapshots env st l).2, e.isCreate = true := by
  intro l
  induction l with
  | nil =>
    intro st e he
    simp [autoCreateCustomVolumeSnapshots] at he
  | cons v rest ih =>
    intro st e he
    simp only [autoCreateCustomVolumeSnapshots] at he
    cases hname : volumeDetermineNextSnapshotName
        (match goMapFind v.config "snapshots.pattern" with
          | none => "snap%d"
          | some p => p)
        (getNextStorageVolumeSnapshotIndex
          (match goMapFind v.config "snapshots.pattern" with
            | none => "snap%d"
            | some p => p)
          (snapshotOnlyNames (snapshotsOfVolumeInPool st.snapshots v.name v.poolName)))
        (snapshotOnlyNames (snapshotsOfVolume st.snapshots v.name)) with
    | error msg =>
        rw [hname] at he
        simp at he
    | ok snapName =>
        rw [hname] at he
        simp only [List.mem_cons] at he
        rcases he with rfl | he
        · rfl
        · exact ih _ e he

/-! ## Claim theorems -/

/-- C10: for a GET of the volume list, supplying both `all-projects=1`
and a `project` query parameter is rejected with BadRequest, and when
neither parameter is supplied the request is evaluated against the
default project. -/
theorem storage_volumes_get_project_mode_spec (p : String) :
    (p ≠ "" → storagePoolVolumesGetProjectMode "1" p =
      .error "Cannot specify a project when requesting all projects") ∧
    storagePoolVolumesGetProjectMode "" "" = .ok (some "default") := by
  constructor
  · intro hp
    unfold storagePoolVolumesGetProjectMode
    have h1 : goIsTrue "1" = true := by decide
    simp [h1, hp]
  · rfl

/-- Witness for C10 at a concrete project parameter. -/
theorem storage_volumes_get_project_mode_spec_witness :
    storagePoolVolumesGetProjectMode "1" "default" =
      .error "Cannot specify a project when requesting all projects" ∧
    storagePoolVolumesGetProjectMode "" "" = .ok (some "default") :=
  ⟨(storage_volumes_get_project_mode_spec "default").1 (by decide),
   (storage_volumes_get_project_mode_spec "default").2⟩

/-- C9: the ETag of a storage volume is computed deterministically from
the triple (name, type, config) — in particular it does not depend on
the description — the GET and PUT handlers compute the same tag, and a
PUT whose supplied tag differs from the current one fails with
PreconditionFailed before any driver call is made (empty event trace). -/
theorem storage_volume_etag_spec (vol : Volume) (d : String)
    (tag : Option (String × VolType × List (String × String)))
    (req : PutRequest) (restoreOk : Bool) :
    storagePoolVolumeGetETag { vol with description := d } = storagePoolVolumeGetETag vol ∧
    storagePoolVolumeGetETag vol = volumeETag vol.name vol.vtype vol.config ∧
    (∀ t, tag = some t → t ≠ volumeETag vol.name vol.vtype vol.config →
      storagePoolVolumePut vol tag req restoreOk = (.preconditionFailed, [])) := by
  refine ⟨rfl, rfl, ?_⟩
  intro t ht hne
  subst ht
  unfold storagePoolVolumePut
  have hc : etagCheck (some t) (volumeETag vol.name vol.vtype vol.config) = false := by
    unfold etagCheck
    simp [hne]
  rw [hc]
  simp

/-- Witness for C9 at a concrete volume and mismatching tag. -/
theorem storage_volume_etag_spec_witness :
    storagePoolVolumePut ⟨"v1", .custom, [("k", "a")], "d1"⟩
      (some ("v1", .custom, [("k", "b")])) ⟨"", none, ""⟩ true =
      (.preconditionFailed, []) :=
  (storage_volume_etag_spec ⟨"v1", .custom, [("k", "a")], "d1"⟩ "d2"
    (some ("v1", .custom, [("k", "b")])) ⟨"", none, ""⟩ true).2.2
    ("v1", .custom, [("k", "b")]) rfl (by decide)

/-- C8: on a PUT for a custom volume with a non-empty Restore field and
a matching ETag, the snapshot restore is the first driver call, and the
config/description update step runs only when a non-nil Config is
supplied (and the restore succeeded). -/
theorem storage_volume_put_restore_spec (vol : Volume)
    (tag : Option (String × VolType × List (String × String)))
    (req : PutRequest) (restoreOk : Bool)
    (hv : vol.vtype = .custom)
    (he : etagCheck tag (volumeETag vol.name vol.vtype vol.config) = true)
    (hr : req.restore ≠ "") :
    (storagePoolVolumePut vol tag req restoreOk).2.head? = some (.restore req.restore) ∧
    (restoreOk = true → req.config.isSome = true →
      (storagePoolVolumePut vol tag req restoreOk).2 =
        [.restore req.restore, .updateCustomVolume]) ∧
    (restoreOk = true → req.config = none →
      (storagePoolVolumePut vol tag req restoreOk).2 = [.restore req.restore]) ∧
    (restoreOk = false →
      (storagePoolVolumePut vol tag req restoreOk).2 = [.restore req.restore]) := by
  unfold storagePoolVolumePut
  rw [he, hv]
  refine ⟨?_, ?_, ?_, ?_⟩
  · cases restoreOk <;> cases hcfg : req.config <;> simp [hcfg, hr]
  · intro h1 h2
    subst h1
    simp [h2, hr]
  · intro h1 h2
    subst h1
    simp [h2, hr]
  · intro h1
    subst h1
    simp [hr]

/-- Witness for C8 at a concrete volume: restore with and without a
config. -/
theorem storage_volume_put_restore_spec_witness :
    (storagePoolVolumePut ⟨"v1", .custom, [], ""⟩ none
      ⟨"snapA", some [("k", "v")], ""⟩ true).2 =
        [.restore "snapA", .updateCustomVolume] ∧
    (storagePoolVolumePut ⟨"v1", .custom, [], ""⟩ none ⟨"snapA", none, ""⟩ true).2 =
      [.restore "snapA"] :=
  ⟨(storage_volume_put_restore_spec ⟨"v1", .custom, [], ""⟩ none
      ⟨"snapA", some [("k", "v")], ""⟩ true rfl rfl (by decide)).2.1 rfl rfl,
   (storage_volume_put_restore_spec ⟨"v1", .custom, [], ""⟩ none
      ⟨"snapA", none, ""⟩ true rfl rfl (by decide)).2.2.1 rfl rfl⟩

/-- C5: a DELETE through the storage API is rejected when the volume
type is neither custom nor image, and rejected when the used-by list is
non-empty — except that an image volume whose only used-by entry is the
image resource with the volume own fingerprint is deleted. -/
theorem storage_volume_delete_spec (vt : VolType) (name : String)
    (usedBy : List String) (hs : isSnapshotName name = false) :
    (vt ≠ .custom → vt ≠ .image →
      storagePoolVolumeDelete vt name usedBy = .badRequestType) ∧
    (usedBy = [] → (vt = .custom ∨ vt = .image) →
      storagePoolVolumeDelete vt name usedBy = .deleted vt) ∧
    (∀ u, usedBy = [u] → vt = .image → isImageURL u name = true →
      storagePoolVolumeDelete vt name usedBy = .deleted .image) ∧
    ((vt = .custom ∨ vt = .image) → usedBy ≠ [] →
      ¬(vt = .image ∧ ∃ u, usedBy = [u] ∧ isImageURL u name = true) →
      storagePoolVolumeDelete vt name usedBy = .badRequestInUse) := by
  unfold storagePoolVolumeDelete
  rw [hs]
  simp only [Bool.false_eq_true, if_false]
  refine ⟨?_, ?_, ?_, ?_⟩
  · intro h1 h2
    rw [if_pos ⟨h1, h2⟩]
  · intro h1 h2
    subst h1
    have hvt : ¬(vt ≠ .custom ∧ vt ≠ .image) := by
      rcases h2 with rfl | rfl <;> simp
    rw [if_neg hvt, if_neg]
    simp
  · intro u h1 h2 h3
    subst h1
    subst h2
    rw [if_neg (by simp), if_neg]
    rintro ⟨-, h⟩
    rcases h with h | h | h
    · exact h rfl
    · exact h rfl
    · simp only [List.headD] at h
      exact h h3
  · intro h1 h2 h3
    have hvt : ¬(vt ≠ .custom ∧ vt ≠ .image) := by
      rcases h1 with rfl | rfl <;> simp
    rw [if_neg hvt, if_pos]
    constructor
    · cases usedBy with
      | nil => exact absurd rfl h2
      | cons u rest => simp
    · by_cases hlen : usedBy.length = 1
      · obtain ⟨u, rfl⟩ := List.length_eq_one.mp hlen
        by_cases hvti : vt = .image
        · by_cases himg : isImageURL u name = true
          · exact absurd ⟨hvti, u, rfl, himg⟩ h3
          · right; right
            simpa using himg
        · right; left; exact hvti
      · left; exact hlen

/-- Witness for C5: an image volume used only by its own image record is
deleted; a container volume is rejected by type; a custom volume in use
is rejected. -/
theorem storage_volume_delete_spec_witness :
    storagePoolVolumeDelete .image "abc" ["/1.0/images/abc"] = .deleted .image ∧
    storagePoolVolumeDelete .container "c1" [] = .badRequestType ∧
    storagePoolVolumeDelete .custom "v1" ["/1.0/instances/i1"] = .badRequestInUse := by
  refine ⟨(storage_volume_delete_spec .image "abc" ["/1.0/images/abc"] (by decide)).2.2.1
      "/1.0/images/abc" rfl rfl (by decide),
    (storage_volume_delete_spec .container "c1" [] (by decide)).1
      (by decide) (by decide),
    (storage_volume_delete_spec .custom "v1" ["/1.0/instances/i1"] (by decide)).2.2.2
      (Or.inl rfl) (by decide) ?_⟩
  rintro ⟨h, -⟩
  exact absurd h (by decide)

/-- C6: a backup import whose resolved pool is not in the catalog fails
when the backup is optimized or the user pinned a pool; otherwise it
falls back to the root-disk pool of the default profile of the target
project; and inside the run an optimized backup whose recorded driver
differs from the target pool driver is rejected. -/
theorem storage_volume_backup_import_spec (poolExists : String → Bool)
    (defaultRoot : Option String) (driverOf : String → String)
    (reqPool binfoPool backend targetPool : String) (optimized : Bool) :
    (poolExists (if reqPool ≠ "" then reqPool else binfoPool) = false →
      (optimized = true ∨ reqPool ≠ "") →
      createStoragePoolVolumeFromBackupResolvePool poolExists defaultRoot
        reqPool binfoPool optimized = .error .poolNotFound) ∧
    (∀ p, poolExists binfoPool = false → optimized = false → reqPool = "" →
      defaultRoot = some p →
      createStoragePoolVolumeFromBackupResolvePool poolExists defaultRoot
        reqPool binfoPool optimized = .ok p) ∧
    (poolExists (if reqPool ≠ "" then reqPool else binfoPool) = true →
      createStoragePoolVolumeFromBackupResolvePool poolExists defaultRoot
        reqPool binfoPool optimized = .ok (if reqPool ≠ "" then reqPool else binfoPool)) ∧
    (optimized = true → driverOf targetPool ≠ backend →
      createStoragePoolVolumeFromBackupRun driverOf backend optimized targetPool =
        .error .optimizedDriverMismatch) ∧
    (driverOf targetPool = backend →
      createStoragePoolVolumeFromBackupRun driverOf backend optimized targetPool =
        .ok ()) := by
  refine ⟨?_, ?_, ?_, ?_, ?_⟩
  · intro h1 h2
    unfold createStoragePoolVolumeFromBackupResolvePool
    simp only [h1, Bool.false_eq_true, if_false]
    rw [if_pos]
    rcases h2 with h2 | h2
    · left; exact h2
    · right; exact h2
  · intro p h1 h2 h3 h4
    unfold createStoragePoolVolumeFromBackupResolvePool
    subst h2
    subst h3
    subst h4
    simp [h1]
  · intro h1
    unfold createStoragePoolVolumeFromBackupResolvePool
    simp only [ne_eq, ite_not] at h1 ⊢
    simp [h1]
  · intro h1 h2
    unfold createStoragePoolVolumeFromBackupRun
    subst h1
    rw [if_pos ⟨rfl, h2⟩]
  · intro h1
    unfold createStoragePoolVolumeFromBackupRun
    rw [if_neg]
    rintro ⟨-, h⟩
    exact h h1

/-- Witness for C6: an unknown pool with an optimized backup fails; an
unknown pool with a plain backup falls back to the default-profile root
pool; a driver mismatch on an optimized backup is rejected. -/
theorem storage_volume_backup_import_spec_witness :
    createStoragePoolVolumeFromBackupResolvePool (fun _ => false) (some "dflt")
      "" "bpool" true = .error .poolNotFound ∧
    createStoragePoolVolumeFromBackupResolvePool (fun _ => false) (some "dflt")
      "" "bpool" false = .ok "dflt" ∧
    createStoragePoolVolumeFromBackupRun (fun _ => "zfs") "btrfs" true "p" =
      .error .optimizedDriverMismatch :=
  ⟨(storage_volume_backup_import_spec (fun _ => false) (some "dflt")
      (fun _ => "zfs") "" "bpool" "btrfs" "p" true).1 rfl (Or.inl rfl),
   (storage_volume_backup_import_spec (fun _ => false) (some "dflt")
      (fun _ => "zfs") "" "bpool" "btrfs" "p" false).2.1 "dflt" rfl rfl rfl rfl,
   (storage_volume_backup_import_spec (fun _ => false) (some "dflt")
      (fun _ => "zfs") "" "bpool" "btrfs" "p" true).2.2.2.1 rfl (by decide)⟩

/-- C7: a manual snapshot creation without a supplied name derives the
name by substituting the next snapshot index into
`config["snapshots.pattern"]` (default `snap%d` when unset), and the
expiry is the request value when given, else computed from
`config["snapshots.expiry.manual"]`, else from
`config["snapshots.expiry"]`. -/
theorem manual_snapshot_create_spec (config : List (String × String))
    (i : Nat) (t : Int) :
    (goCount (if goMapGet config "snapshots.pattern" = "" then "snap%d"
        else goMapGet config "snapshots.pattern") "%d" = 1 →
      storagePoolVolumeSnapshotsTypePostName config i "" =
        goReplaceFirst (if goMapGet config "snapshots.pattern" = "" then "snap%d"
          else goMapGet config "snapshots.pattern") "%d" (goItoa i)) ∧
    storagePoolVolumeSnapshotsTypePostExpiry config (some t) = .fromRequest t ∧
    (goMapGet config "snapshots.expiry.manual" ≠ "" →
      storagePoolVolumeSnapshotsTypePostExpiry config none =
        .computed (goMapGet config "snapshots.expiry.manual")) ∧
    (goMapGet config "snapshots.expiry.manual" = "" →
      storagePoolVolumeSnapshotsTypePostExpiry config none =
        .computed (goMapGet config "snapshots.expiry")) := by
  refine ⟨?_, rfl, ?_, ?_⟩
  · intro h
    show goSprintfInt (if goMapGet config "snapshots.pattern" = "" then "snap%d"
      else goMapGet config "snapshots.pattern") i = _
    exact goSprintfInt_eq_goReplaceFirst _ i h
  · intro h
    unfold storagePoolVolumeSnapshotsTypePostExpiry
    simp [h]
  · intro h
    unfold storagePoolVolumeSnapshotsTypePostExpiry
    simp [h]

/-- Witness for C7 at concrete configurations. -/
theorem manual_snapshot_create_spec_witness :
    storagePoolVolumeSnapshotsTypePostName [] 1 "" =
      goReplaceFirst "snap%d" "%d" (goItoa 1) ∧
    storagePoolVolumeSnapshotsTypePostExpiry [] (some 42) = .fromRequest 42 ∧
    storagePoolVolumeSnapshotsTypePostExpiry
      [("snapshots.expiry.manual", "2d")] none = .computed "2d" ∧
    storagePoolVolumeSnapshotsTypePostExpiry
      [("snapshots.expiry", "3d")] none = .computed "3d" :=
  ⟨(manual_snapshot_create_spec [] 1 42).1 (by decide),
   (manual_snapshot_create_spec [] 1 42).2.1,
   (manual_snapshot_create_spec [("snapshots.expiry.manual", "2d")] 1 42).2.2.1
     (by decide),
   (manual_snapshot_create_spec [("snapshots.expiry", "3d")] 1 42).2.2.2
     (by decide)⟩

/-- C3 (amended): a rendered pattern with more than one placeholder is
rejected; with exactly one placeholder the placeholder is replaced by
the computed next index; with no placeholder the literal pattern is
returned unchanged — also when it is already taken by an existing
snapshot (the index is not appended: replacing a placeholder that does
not occur is a no-op). -/
theorem volume_determine_next_snapshot_name_spec (pattern : String) (i : Nat)
    (existing : List String) :
    (goCount pattern "%d" > 1 →
      volumeDetermineNextSnapshotName pattern i existing =
        .error "Snapshot pattern may contain only one placeholder") ∧
    (goCount pattern "%d" = 1 →
      volumeDetermineNextSnapshotName pattern i existing =
        .ok (goReplaceFirst pattern "%d" (goItoa i))) ∧
    (goCount pattern "%d" = 0 →
      volumeDetermineNextSnapshotName pattern i existing = .ok pattern) := by
  refine ⟨?_, ?_, ?_⟩
  · intro h
    unfold volumeDetermineNextSnapshotName
    rw [if_pos h]
  · intro h
    unfold volumeDetermineNextSnapshotName
    rw [if_neg (by omega), if_pos h]
  · intro h
    unfold volumeDetermineNextSnapshotName
    rw [if_neg (by omega), if_neg (by omega)]
    by_cases hc : existing.contains pattern = true
    · rw [if_pos hc, goReplaceFirst_of_goCount_eq_zero pattern (goItoa i) h]
    · rw [if_neg hc]

/-- Witness for C3 at a pattern with one placeholder. -/
theorem volume_determine_next_snapshot_name_spec_witness :
    volumeDetermineNextSnapshotName "snap%d" 3 [] =
      .ok (goReplaceFirst "snap%d" "%d" (goItoa 3)) :=
  (volume_determine_next_snapshot_name_spec "snap%d" 3 []).2.1 (by decide)

/-- C3 counterexample: a pattern without a placeholder whose literal
value is already taken by an existing snapshot yields the literal name
unchanged, not the literal name with the computed index appended. -/
theorem volume_determine_next_snapshot_name_counterexample :
    volumeDetermineNextSnapshotName "foo" 0 ["foo"] = .ok "foo" ∧
    volumeDetermineNextSnapshotName "foo" 0 ["foo"] ≠ .ok ("foo" ++ goItoa 0) := by
  constructor
  · rfl
  · intro h
    rw [(rfl : volumeDetermineNextSnapshotName "foo" 0 ["foo"] = .ok "foo")] at h
    have := Except.ok.inj h
    exact absurd this (by decide)

/-- C1 (amended): a remote scheduler entry is skipped on every member
when the cluster has more than one member and no member is online; it
is processed locally without any selection when the cluster has a
single member; and otherwise a stable random online member is chosen
per entry with `GetStableRandomInt64FromList(entry_id, online_ids)` and
the entry is processed only when the chosen member is the local one. -/
theorem scheduler_remote_entry_dispatch_spec
    (select : Int → List Int → Except String Int) (memberCount : Nat)
    (online : List Int) (localID : Int) (entries : List SchedulerEntry) :
    (memberCount > 1 → online = [] →
      remoteEntryDispatch select memberCount online localID entries = []) ∧
    (memberCount ≤ 1 →
      remoteEntryDispatch select memberCount online localID entries = entries) ∧
    (memberCount > 1 → online ≠ [] →
      remoteEntryDispatch select memberCount online localID entries =
        entries.filter (fun v =>
          match select v.id online with
          | .error _ => false
          | .ok selected => localID = selected)) := by
  refine ⟨?_, ?_, ?_⟩
  · intro h1 h2
    unfold remoteEntryDispatch
    rw [if_pos ⟨h1, by simp [h2]⟩]
  · intro h1
    unfold remoteEntryDispatch
    rw [if_neg (by omega)]
    have : ∀ v ∈ entries, (if memberCount > 1 then
        (match select v.id online with
          | .error _ => false
          | .ok selected => decide (localID = selected)) else true) = true := by
      intro v _
      rw [if_neg (by omega)]
    rw [List.filter_congr this, List.filter_true]
  · intro h1 h2
    unfold remoteEntryDispatch
    rw [if_neg (by rintro ⟨-, hE⟩; exact h2 (List.isEmpty_iff.mp hE))]
    apply List.filter_congr
    intro v _
    rw [if_pos h1]

/-- Witness for C1: a two-member cluster with both members online
dispatches each entry by stable random selection. -/
theorem scheduler_remote_entry_dispatch_spec_witness :
    remoteEntryDispatch getStableRandomInt64FromList 2 [4, 9] 4 [⟨8, -1⟩] =
      List.filter (fun v =>
        match getStableRandomInt64FromList v.id [4, 9] with
        | .error _ => false
        | .ok selected => (4 : Int) = selected) [⟨8, -1⟩] :=
  (scheduler_remote_entry_dispatch_spec getStableRandomInt64FromList 2 [4, 9] 4
    [⟨8, -1⟩]).2.2 (by omega) (by decide)

/-- C1 counterexample: with exactly one online member the remote entry
is not skipped — in a single-member cluster it is processed locally
without selection, and in a two-member cluster whose only online member
is the local one it is selected and processed. -/
theorem scheduler_remote_entry_dispatch_counterexample :
    ([(5 : Int)].length = 1 ∧
      remoteEntryDispatch getStableRandomInt64FromList 1 [5] 5 [⟨7, -1⟩] =
        [⟨7, -1⟩]) ∧
    ([(5 : Int)].length = 1 ∧
      remoteEntryDispatch getStableRandomInt64FromList 2 [5] 5 [⟨7, -1⟩] =
        [⟨7, -1⟩]) := by
  exact ⟨⟨rfl, rfl⟩, ⟨rfl, rfl⟩⟩

/-- C2 (amended): a POST without Migration is dispatched as a rename
exactly when the requested pool is empty or the source pool and the
effective project is unchanged, and as a move otherwise; the move run
updates the consumers to the new pool, then copies, then deletes the
source; on a failure after the consumer update the only undo the move
itself runs is the consumer-update revert — it is the last event, and
no partial-copy revert is performed by the move (cleanup of a partial
copy belongs to the copy step, which completes before the revert
runs). -/
theorem storage_volume_post_rename_move_spec (srcPool projectName : String)
    (eff : String → String) (reqName reqPool reqProject : String)
    (res : MoveStepResults) (src dst : String)
    (hn : reqName ≠ "") (hsnap : isSnapshotName reqName = false) :
    ((reqPool = "" ∨ reqPool = srcPool) →
      storagePoolVolumePostDispatch srcPool projectName eff reqName reqPool "" false =
        .rename) ∧
    (reqPool ≠ "" → reqPool ≠ srcPool →
      storagePoolVolumePostDispatch srcPool projectName eff reqName reqPool "" false =
        .move reqPool projectName) ∧
    (reqProject ≠ "" → eff reqProject = reqProject → projectName ≠ reqProject →
      storagePoolVolumePostDispatch srcPool projectName eff reqName reqPool
        reqProject false =
        .move (if reqPool ≠ "" then reqPool else srcPool) reqProject) ∧
    (storagePoolVolumeTypePostMove src dst ⟨true, true, true⟩ =
      (true, [.updateUsers src dst, .copyVolume src dst, .deleteSource src])) ∧
    (res.updateUsersOk = true → ¬(res.copyOk = true ∧ res.deleteOk = true) →
      (storagePoolVolumeTypePostMove src dst res).2.getLast? =
        some (.revertUsers dst src) ∧
      MoveEvent.revertCopy ∉ (storagePoolVolumeTypePostMove src dst res).2) := by
  refine ⟨?_, ?_, ?_, rfl, ?_⟩
  · intro hp
    unfold storagePoolVolumePostDispatch
    rw [if_neg hn, if_neg (by simp [hsnap])]
    show (if (reqPool = "" ∨ reqPool = srcPool) ∧ projectName = projectName
        then PostDispatch.rename
        else PostDispatch.move (if reqPool ≠ "" then reqPool else srcPool) projectName) =
      PostDispatch.rename
    exact if_pos ⟨hp, rfl⟩
  · intro hp1 hp2
    unfold storagePoolVolumePostDispatch
    rw [if_neg hn, if_neg (by simp [hsnap])]
    show (if (reqPool = "" ∨ reqPool = srcPool) ∧ projectName = projectName
        then PostDispatch.rename
        else PostDispatch.move (if reqPool ≠ "" then reqPool else srcPool) projectName) =
      PostDispatch.move reqPool projectName
    rw [if_neg (by rintro ⟨h, -⟩; rcases h with h | h; exacts [hp1 h, hp2 h]),
      if_pos hp1]
  · intro hp1 hp2 hp3
    unfold storagePoolVolumePostDispatch
    rw [if_neg hn, if_neg (by simp [hsnap])]
    simp [hp1, hp2, hp3]
  · intro h1 h2
    unfold storagePoolVolumeTypePostMove
    rw [h1]
    rcases hcopy : res.copyOk with _ | _
    · simp [hcopy]
    · rcases hdel : res.deleteOk with _ | _
      · simp [hcopy, hdel]
      · exact absurd ⟨hcopy, hdel⟩ h2

/-- Witness for C2: a same-pool same-project request renames; a
successful move copies then deletes. -/
theorem storage_volume_post_rename_move_spec_witness :
    storagePoolVolumePostDispatch "poolA" "default" id "vol2" "" "" false =
      .rename ∧
    storagePoolVolumeTypePostMove "P" "Q" ⟨true, true, true⟩ =
      (true, [.updateUsers "P" "Q", .copyVolume "P" "Q", .deleteSource "P"]) :=
  ⟨(storage_volume_post_rename_move_spec "poolA" "default" id "vol2" "" ""
      ⟨true, true, true⟩ "P" "Q" (by decide) (by decide)).1 (Or.inl rfl),
   (storage_volume_post_rename_move_spec "poolA" "default" id "vol2" "" ""
      ⟨true, true, true⟩ "P" "Q" (by decide) (by decide)).2.2.2.1⟩

/-- C2 counterexample: when the copy step fails, the move reverts only
the consumer updates — the consumer revert is the final event and no
partial-copy revert follows it, so the consumer updates are not
reverted before a partial-copy revert. -/
theorem storage_volume_move_revert_counterexample :
    (storagePoolVolumeTypePostMove "A" "B" ⟨true, false, true⟩).2 =
      [.updateUsers "A" "B", .revertUsers "B" "A"] ∧
    (storagePoolVolumeTypePostMove "A" "B" ⟨true, false, true⟩).2.getLast? =
      some (.revertUsers "B" "A") ∧
    MoveEvent.revertCopy ∉ (storagePoolVolumeTypePostMove "A" "B" ⟨true, false, true⟩).2 := by
  refine ⟨rfl, rfl, by decide⟩

/-- C4 (amended): every scheduler tick processes all expired-snapshot
deletions before any scheduled creation is started; on the concrete
single-member scenario (volume `vol1` scheduled every minute with one
expired snapshot) a tick produces exactly one deletion followed by
exactly one creation; a repeated tick in the same minute performs no
deletion but creates one further snapshot. -/
theorem snapshot_scheduler_tick_ordering :
    (∀ env st, ∃ ds cs,
      (pruneExpiredAndAutoCreateCustomVolumeSnapshotsTask env st).2 = ds ++ cs ∧
      (∀ e ∈ ds, e.isDelete = true) ∧ (∀ e ∈ cs, e.isCreate = true)) ∧
    (pruneExpiredAndAutoCreateCustomVolumeSnapshotsTask schedTestEnv schedTestState).2 =
      [.deleteSnapshot "default" "vol1/snap0", .createSnapshot "default" "vol1" "snap0"] ∧
    (pruneExpiredAndAutoCreateCustomVolumeSnapshotsTask schedTestEnv
      (pruneExpiredAndAutoCreateCustomVolumeSnapshotsTask schedTestEnv schedTestState).1).2 =
      [.createSnapshot "default" "vol1" "snap1"] := by
  refine ⟨?_, rfl, rfl⟩
  intro env st
  refine ⟨_, _, rfl, ?_, ?_⟩
  · intro e he
    exact pruneExpired_events_are_deletes _ _ e he
  · intro e he
    exact autoCreate_events_are_creates env _ _ e he

/-- Witness for C4: the concrete first tick of the scenario. -/
theorem snapshot_scheduler_tick_ordering_witness :
    (pruneExpiredAndAutoCreateCustomVolumeSnapshotsTask schedTestEnv schedTestState).2 =
      [.deleteSnapshot "default" "vol1/snap0", .createSnapshot "default" "vol1" "snap0"] :=
  snapshot_scheduler_tick_ordering.2.1

/-- C4 counterexample: the repeated tick in the same minute is not a
no-op — it performs no deletion but creates a further snapshot
`snap1`. -/
theorem snapshot_scheduler_repeated_tick_counterexample :
    (pruneExpiredAndAutoCreateCustomVolumeSnapshotsTask schedTestEnv
      (pruneExpiredAndAutoCreateCustomVolumeSnapshotsTask schedTestEnv schedTestState).1).2 =
      [.createSnapshot "default" "vol1" "snap1"] ∧
    (pruneExpiredAndAutoCreateCustomVolumeSnapshotsTask schedTestEnv
      (pruneExpiredAndAutoCreateCustomVolumeSnapshotsTask schedTestEnv schedTestState).1).2 ≠
      [] := by
  constructor
  · rfl
  · intro h
    rw [(rfl : (pruneExpiredAndAutoCreateCustomVolumeSnapshotsTask schedTestEnv
      (pruneExpiredAndAutoCreateCustomVolumeSnapshotsTask schedTestEnv schedTestState).1).2 =
      [.createSnapshot "default" "vol1" "snap1"])] at h
    cases h

end Incus
